import Mathlib

/-!
Verification of the mobileclaw embedding layer: the session registry,
the synchronous/asynchronous bridge, the authorization gate and the
boundary adapters, shallowly embedded from the Rust sources
(src/jni_bridge.rs, src/mobile_bridge.rs, src/tools/telegram_notify.rs,
src/runtime/android.rs).

External collaborators (the agent loop, the network client, the JSON
text layer of serde, the JNI environment) enter the model as oracle
parameters: a call into them is a function argument whose result the
embedded code inspects exactly as the source does.
-/

namespace Mobileclaw

/-! ## JSON values

A model of serde_json values.  Text parsing and rendering belong to the
external serde library; the embedding works at the level of parsed
values, and numbers are modelled as rationals (enough for the decimal
literals the bridge handles). -/

inductive Json where
  | null : Json
  | bool : Bool → Json
  | num : Rat → Json
  | str : String → Json
  | arr : List Json → Json
  | obj : List (String × Json) → Json
deriving Repr

mutual

def Json.beq : Json → Json → Bool
  | .null, .null => true
  | .bool a, .bool b => a == b
  | .num a, .num b => a == b
  | .str a, .str b => a == b
  | .arr a, .arr b => Json.beqList a b
  | .obj a, .obj b => Json.beqFields a b
  | _, _ => false

def Json.beqList : List Json → List Json → Bool
  | [], [] => true
  | a :: as, b :: bs => Json.beq a b && Json.beqList as bs
  | _, _ => false

def Json.beqFields : List (String × Json) → List (String × Json) → Bool
  | [], [] => true
  | (ka, va) :: as, (kb, vb) :: bs => ka == kb && Json.beq va vb && Json.beqFields as bs
  | _, _ => false

end

instance : BEq Json := ⟨Json.beq⟩

/-- Field lookup in a JSON object body (first match), as serde_json
`Value::get` does on an object. -/
def Json.getField (fields : List (String × Json)) (key : String) : Option Json :=
  match fields with
  | [] => none
  | (k, v) :: rest => if k == key then some v else Json.getField rest key

/-- `Value::get` on an arbitrary JSON value: objects answer field
lookups, everything else answers none. -/
def Json.get : Json → String → Option Json
  | .obj fields, key => Json.getField fields key
  | _, _ => none

/-- `Value::as_str`: some for strings, none otherwise. -/
def Json.asStr : Json → Option String
  | .str s => some s
  | _ => none

/-- `Value::as_bool`: some for booleans, none otherwise. -/
def Json.asBool : Json → Option Bool
  | .bool b => some b
  | _ => none

/-- Rust `str::trim` at the character-list level: drop whitespace from
both ends. -/
def trimChars (l : List Char) : List Char :=
  ((l.dropWhile Char.isWhitespace).reverse.dropWhile Char.isWhitespace).reverse

/-- Rust `str::trim` on strings (whitespace in the sense of
`Char.isWhitespace`, which covers the characters these claims use). -/
def rustTrim (s : String) : String := ⟨trimChars s.data⟩

/-- Rust `str::is_empty`, read off the character list. -/
def strIsEmpty (s : String) : Bool := s.data.isEmpty

/-! ## mobile_bridge.rs — the single-shot boundary adapter -/

/-- src/mobile_bridge.rs `MobileBridgeRequest`: the decoded request of
the single-shot entry point.  Field attributes of the source struct
(`prompt` required, the rest defaulted) live in `parseRequest` below. -/
structure MobileBridgeRequest where
  prompt : String
  system_prompt : Option String
  provider : String
  model : String
  api_url : Option String
  api_key : Option String
  temperature : Rat
deriving Repr

/-- src/mobile_bridge.rs `default_provider`. -/
def default_provider : String := "ollama"

/-- src/mobile_bridge.rs `default_model`. -/
def default_model : String := "gpt-oss:20b"

/-- src/mobile_bridge.rs `default_temperature` (the literal 0.2). -/
def default_temperature : Rat := 2 / 10

/-- Decode one optional string field the way the derived serde
deserializer treats `Option<String>` under `serde(default)`: absent or
null gives none, a string gives some, any other value is a type error. -/
def decodeOptStr (fields : List (String × Json)) (key : String) :
    Except String (Option String) :=
  match Json.getField fields key with
  | none => .ok none
  | some .null => .ok none
  | some (.str s) => .ok (some s)
  | some _ => .error ("invalid type for field " ++ key)

/-- Decode one defaulted string field (`provider`, `model`). -/
def decodeStrOr (fields : List (String × Json)) (key : String) (dflt : String) :
    Except String String :=
  match Json.getField fields key with
  | none => .ok dflt
  | some (.str s) => .ok s
  | some _ => .error ("invalid type for field " ++ key)

/-- The derived `Deserialize` of `MobileBridgeRequest` applied to an
already-parsed JSON value: `prompt` is required, every other field is
defaulted exactly as the source struct declares. -/
def parseRequest (j : Json) : Except String MobileBridgeRequest :=
  match j with
  | .obj fields =>
    match Json.getField fields "prompt" with
    | none => .error "missing field prompt"
    | some pv =>
      match pv.asStr with
      | none => .error "invalid type for field prompt"
      | some prompt => do
        let system_prompt ← decodeOptStr fields "system_prompt"
        let provider ← decodeStrOr fields "provider" default_provider
        let model ← decodeStrOr fields "model" default_model
        let api_url ← decodeOptStr fields "api_url"
        let api_key ← decodeOptStr fields "api_key"
        let temperature ←
          match Json.getField fields "temperature" with
          | none => .ok default_temperature
          | some (.num q) => .ok q
          | some _ => .error "invalid type for field temperature"
        .ok { prompt, system_prompt, provider, model, api_url, api_key, temperature }
  | _ => .error "expected a JSON object"

/-- src/mobile_bridge.rs `make_response`, at the level of the JSON value
the serde serialization of `MobileBridgeResponse` produces: always an
object with exactly the fields ok, reply, error in that order. -/
def make_response (ok : Bool) (reply : Option String) (error : Option String) : Json :=
  Json.obj
    [ ("ok", Json.bool ok),
      ("reply", match reply with | some r => Json.str r | none => Json.null),
      ("error", match error with | some e => Json.str e | none => Json.null) ]

/-- src/mobile_bridge.rs `handle_request_json`.  The input is the parsed
request value (text-level parse failures of serde_json take the same
`.error` branch as struct mismatches); `chat` is the external
`run_chat` (provider construction plus one provider call), which either
yields a reply or an error rendered to text. -/
def handle_request_json (chat : MobileBridgeRequest → Except String String)
    (j : Json) : Json :=
  match parseRequest j with
  | .error e => make_response false none (some ("invalid request JSON: " ++ e))
  | .ok request =>
    if strIsEmpty (rustTrim request.prompt) then
      make_response false none (some "prompt must not be empty")
    else
      match chat request with
      | .ok reply => make_response true (some reply) none
      | .error e => make_response false none (some e)

/-! ## mobile_bridge.rs — buffer release

The C boundary hands out heap buffers; the release operation is
modelled against an explicit set of live allocations.  A fault stands
for any undefined behaviour (freeing through an invalid pointer). -/

/-- A returned C string buffer: null, or an allocation identified by an
address. -/
inductive CPtr where
  | null : CPtr
  | addr : Nat → CPtr
deriving DecidableEq, Repr

/-- src/mobile_bridge.rs `mobileclaw_free_cstring`: a null pointer
returns immediately; otherwise `CString::from_raw` reclaims the
allocation, a fault if the address is not a live allocation. -/
def mobileclaw_free_cstring (live : List Nat) : CPtr → Except String (List Nat)
  | .null => .ok live
  | .addr a =>
    if a ∈ live then .ok (live.erase a)
    else .error "invalid free"

/-! ## The authorization gate

src/tools/telegram_notify.rs consults `crate::security::SecurityPolicy`
through `can_act` and `record_action`.  That module is not part of the
sources under study; the two operations are modelled from the spec. -/

/-- The autonomy levels the spec names for the policy enum. -/
inductive AutonomyLevel where
  | ReadOnly : AutonomyLevel
  | Full : AutonomyLevel
deriving DecidableEq, Repr

/-- The policy fields the gate consults, as the source test helper
constructs them: an autonomy level and a per-window action maximum. -/
structure SecurityPolicy where
  autonomy : AutonomyLevel
  max_actions_per_hour : Nat
deriving Repr

/-- Modelled from the spec: `SecurityPolicy::can_act` (crate::security
is outside the studied sources).  The autonomy check — a read-only
policy denies acting, a full policy allows it; it inspects no counter. -/
def SecurityPolicy.can_act (p : SecurityPolicy) : Bool :=
  match p.autonomy with
  | .ReadOnly => false
  | .Full => true

/-- Modelled from the spec: `SecurityPolicy::record_action`
(crate::security is outside the studied sources).  The rate check on
the rolling counter: if one more action would exceed the configured
maximum in the window it refuses and leaves the counter alone,
otherwise it records the action and allows. -/
def SecurityPolicy.record_action (p : SecurityPolicy) (count : Nat) : Bool × Nat :=
  if count < p.max_actions_per_hour then (true, count + 1) else (false, count)

/-! ## tools/telegram_notify.rs — the gated side-effecting tool -/

/-- src/tools/telegram_notify.rs `ToolResult` (shape taken from its
construction sites in the source: success flag, output text, optional
error text). -/
structure ToolResult where
  success : Bool
  output : String
  error : Option String
deriving DecidableEq, Repr

/-- src/tools/telegram_notify.rs `TelegramNotifyTool` (the reqwest
client is the external network collaborator and does not appear). -/
structure TelegramNotifyTool where
  security : SecurityPolicy
  bot_token : String
  chat_id : String

/-- Observable effects of one `execute` run: the gate counting
operation, and the outward network request carrying the message text. -/
inductive Effect where
  | recordAction : Effect
  | networkSend : String → Effect
deriving DecidableEq, Repr

/-- The network collaborator answer: HTTP status success flag and the
response body text, together with the external serde parse of that
body (none when the body is not valid JSON text). -/
structure HttpResponse where
  statusSuccess : Bool
  text : String
  parsed : Option Json

/-- One completed `execute` call: the returned value (`.error` is the
anyhow early return, `.ok` a `ToolResult`), the counter afterwards and
the effects performed, in order. -/
structure ExecOutcome where
  result : Except String ToolResult
  count : Nat
  effects : List Effect
deriving Repr

/-- Lines 81–87 of src/tools/telegram_notify.rs: read the message
argument, keep it only when it is a string whose trim is nonempty. -/
def messageArg (args : Json) : Option String :=
  match (args.get "message").bind Json.asStr with
  | none => none
  | some s =>
    let t := rustTrim s
    if strIsEmpty t then none else some t

/-- src/tools/telegram_notify.rs `TelegramNotifyTool::execute`, with
the counter passed explicitly and the network client as an oracle from
the sent message to the HTTP response. -/
def TelegramNotifyTool.execute (tool : TelegramNotifyTool) (count : Nat)
    (args : Json) (net : String → HttpResponse) : ExecOutcome :=
  if tool.security.can_act = false then
    { result := .ok
                          { success := false, output := "",
                            error := some "Action blocked: autonomy is read-only" },
      count := count, effects := [] }
  else
    let rec1 := tool.security.record_action count
    if rec1.1 = false then
      { result := .ok
                            { success := false, output := "",
                              error := some "Action blocked: rate limit exceeded" },
        count := rec1.2, effects := [.recordAction] }
    else
      match messageArg args with
      | none =>
        { result := .error "Missing \x27message\x27 parameter",
          count := rec1.2, effects := [.recordAction] }
      | some message =>
        let response := net message
        let tail : Except String ToolResult :=
          if response.statusSuccess = false then
            .ok { success := false, output := response.text,
                  error := some "Telegram API returned a failure status" }
          else
            let ok := ((response.parsed.bind (fun j => j.get "ok")).bind
              Json.asBool).getD false
            if ok then
              .ok { success := true,
                    output := "Telegram message sent to chat " ++ tool.chat_id ++ ".",
                    error := none }
            else
              .ok { success := false, output := response.text,
                    error := some "Telegram API returned ok=false" }
        { result := tail, count := rec1.2,
          effects := [.recordAction, .networkSend message] }

/-! ## jni_bridge.rs — handle counter, registry and foreign calls -/

/-- Two to the sixty-third, the i64 sign bound. -/
def i64Half : Int := 2 ^ 63

/-- Wrapping to i64 two-complement range, as Rust atomics wrap on
overflow. -/
def wrap64 (n : Int) : Int := (n + i64Half) % (2 * i64Half) - i64Half

/-- src/jni_bridge.rs `next_handle_id`: the static atomic starts at 1
and each call does a fetch-and-add of 1.  `nextIdState k` is the value
the counter holds before the k-th call, hence the value that call
returns. -/
def nextIdState : Nat → Int
  | 0 => 1
  | k + 1 => wrap64 (nextIdState k + 1)

/-- The slice of `crate::config::Config` the bridge touches (the full
configuration module is outside the studied sources; only these fields
are read or written in src/jni_bridge.rs). -/
structure Config where
  api_key : Option String
  default_model : Option String
  default_provider : Option String
  gateway_host : String
  gateway_port : Nat
  gateway_require_pairing : Bool
  android_enabled : Bool
  android_bridge_mode : String
  telegram : Option (String × List Nat)
deriving DecidableEq, Repr

/-- src/jni_bridge.rs `AgentHandle`, minus the tokio runtime (the
execution context is external; the registry claims depend only on
presence and configuration). -/
structure AgentHandle where
  config : Config
deriving DecidableEq, Repr

/-- The registry storage `AGENT_HANDLES`: a lazily initialized map,
none before `init_handles` ever ran, modelled over an association
list keyed by the i64 handle id. -/
abbrev Registry := Option (List (Int × AgentHandle))

/-- HashMap `get` on the association list. -/
def mapGet (m : List (Int × AgentHandle)) (k : Int) : Option AgentHandle :=
  match m with
  | [] => none
  | (k0, v) :: rest => if k0 = k then some v else mapGet rest k

/-- HashMap `insert` (replacing any previous binding of the key). -/
def mapInsert (m : List (Int × AgentHandle)) (k : Int) (v : AgentHandle) :
    List (Int × AgentHandle) :=
  (k, v) :: m.filter (fun e => decide (e.1 ≠ k))

/-- HashMap `remove`, returning the removed value alongside the
remaining map. -/
def mapRemove (m : List (Int × AgentHandle)) (k : Int) :
    Option AgentHandle × List (Int × AgentHandle) :=
  (mapGet m k, m.filter (fun e => decide (e.1 ≠ k)))

/-- Registry lookup as the foreign calls perform it:
`handles.as_ref().and_then(m.get)` — an uninitialized registry answers
none. -/
def regLookup (reg : Registry) (k : Int) : Option AgentHandle :=
  match reg with
  | none => none
  | some m => mapGet m k

/-- src/jni_bridge.rs `init_handles`: make the storage an empty map if
it was never initialized, and leave it alone otherwise. -/
def init_handles (reg : Registry) : Registry :=
  match reg with
  | none => some []
  | some m => some m

/-- A JNI call returning a Java object reference: either a value, or a
thrown RuntimeException (the native side then returns null / 0). -/
inductive JniResult (α : Type) where
  | ok : α → JniResult α
  | thrown : String → JniResult α
deriving DecidableEq, Repr

/-- src/jni_bridge.rs `Java_..._startAgent`.  Oracles stand for the
external collaborators: `configPath` is the JNI string decode of the
first argument, `apiKey` / `model` / `telegramToken` the decodes of the
others (a failed decode defaults to the empty string, as
`unwrap_or_default` does), `loadConfig` is `Config::load_or_init`,
`runtimeOk` whether `tokio::runtime::Runtime::new` succeeded, and
`newId` the value `next_handle_id` returns.  The daemon is spawned fire
and forget; its later fate does not reach this call.  Returns the
registry afterwards and the jlong outcome. -/
def startAgent (reg : Registry)
    (configPath : Except String String)
    (apiKey model telegramToken : Except String String)
    (loadConfig : Except String Config)
    (runtimeOk : Bool)
    (newId : Int) : Registry × JniResult Int :=
  let reg1 := init_handles reg
  match configPath with
  | .error e => (reg1, .thrown ("Invalid config path: " ++ e))
  | .ok _ =>
    let apiKeyStr := apiKey.toOption.getD ""
    let modelStr := model.toOption.getD ""
    let telegramTokenStr := telegramToken.toOption.getD ""
    match loadConfig with
    | .error e => (reg1, .thrown ("Failed to load config: " ++ e))
    | .ok config0 =>
      let config1 := { config0 with
        api_key := if apiKeyStr.isEmpty then config0.api_key else some apiKeyStr,
        default_model := if modelStr.isEmpty then config0.default_model else some modelStr,
        default_provider := match config0.default_provider with
          | none => some "openrouter"
          | some p => some p,
        gateway_port := 8000,
        gateway_require_pairing := false,
        android_enabled := true,
        android_bridge_mode := "http",
        telegram := if telegramTokenStr.isEmpty then config0.telegram
          else some (telegramTokenStr, []) }
      if runtimeOk = false then
        (reg1, .thrown "Failed to create tokio runtime")
      else
        match reg1 with
        | none => (reg1, .ok newId)
        | some m => (some (mapInsert m newId { config := config1 }), .ok newId)

/-- Lines 168–173 of src/jni_bridge.rs: the agent outcome is rendered
to the reply text — an internal failure becomes descriptive text. -/
def renderAgentResult : Except String String → String
  | .ok r => r
  | .error e => "Error processing message: " ++ e

/-- src/jni_bridge.rs `Java_..._processMessage`.  `message` is the JNI
decode of the message argument, `agent` the external
`agent::loop_::process_message` run to completion on the session
runtime, and `newStringOk` tells whether the JNI environment managed to
allocate the given Java string. -/
def processMessage (reg : Registry) (handle_id : Int)
    (message : Except String String)
    (agent : Config → String → Except String String)
    (newStringOk : String → Bool) : JniResult String :=
  match regLookup reg handle_id with
  | none => .thrown "Invalid handle ID"
  | some h =>
    match message with
    | .error e => .thrown ("Invalid message: " ++ e)
    | .ok messageStr =>
      let response := renderAgentResult (agent h.config messageStr)
      if newStringOk response then .ok response
      else .thrown "Failed to create response string"

/-- src/jni_bridge.rs `Java_..._isHealthy`: presence in the registry,
never an exception. -/
def isHealthy (reg : Registry) (handle_id : Int) : Bool :=
  (regLookup reg handle_id).isSome

/-- src/jni_bridge.rs `Java_..._stopAgent`: under the lock, when the
storage is initialized, remove the binding and throw when no binding
was there; when the storage was never initialized the conditional body
is skipped entirely and nothing is thrown.  Returns the registry
afterwards and the thrown message, if any. -/
def stopAgent (reg : Registry) (handle_id : Int) : Registry × Option String :=
  match reg with
  | none => (none, none)
  | some m =>
    let rem := mapRemove m handle_id
    match rem.1 with
    | some _ => (some rem.2, none)
    | none => (some rem.2, some "Invalid handle ID")

/-! ## Lock discipline of the bridged calls

The registry lock is a single process-wide mutex.  To reason about what
happens while it is held, each bridged call is flattened to its trace
of lock and work events, read off the straight-line source: the
MutexGuard obtained at the top of the function is dropped when the
function returns, after `runtime.block_on`. -/

/-- Events of one bridged call: taking the registry lock, looking up a
handle in the map, running the session work to completion
(`runtime.block_on`), and the guard drop releasing the lock. -/
inductive LockEvent where
  | lockAcquire : LockEvent
  | mapLookup : Int → LockEvent
  | sessionWork : LockEvent
  | lockRelease : LockEvent
deriving DecidableEq, Repr

/-- The lock-event trace of `Java_..._processMessage`: the guard from
line 148 of src/jni_bridge.rs lives to the end of the function, so on
a valid handle with a decodable message the `block_on` session work at
line 168 happens between acquire and release. -/
def processMessageTrace (reg : Registry) (handle_id : Int)
    (messageOk : Bool) : List LockEvent :=
  match regLookup reg handle_id with
  | none => [.lockAcquire, .mapLookup handle_id, .lockRelease]
  | some _ =>
    if messageOk then
      [.lockAcquire, .mapLookup handle_id, .sessionWork, .lockRelease]
    else
      [.lockAcquire, .mapLookup handle_id, .lockRelease]

/-- The lock-event trace of `Java_..._executeTool`: same shape — the
guard from line 259 is dropped after the `block_on` at line 290. -/
def executeToolTrace (reg : Registry) (handle_id : Int)
    (argsOk : Bool) : List LockEvent :=
  match regLookup reg handle_id with
  | none => [.lockAcquire, .mapLookup handle_id, .lockRelease]
  | some _ =>
    if argsOk then
      [.lockAcquire, .mapLookup handle_id, .sessionWork, .lockRelease]
    else
      [.lockAcquire, .mapLookup handle_id, .lockRelease]

/-- A trace holds the lock during session work when the lock is taken
and some session work runs before any release of the lock (the first
release, if any, comes only later). -/
def heldDuringWork (t : List LockEvent) : Prop :=
  ∃ i j, i < j ∧
    t.get? i = some .sessionWork ∧
    t.get? j = some .lockRelease ∧
    (.lockAcquire ∈ t.take i) ∧
    ∀ r < i, t.get? r ≠ some .lockRelease

/-- The denial of `heldDuringWork` that the spec demands: in the trace,
every session work event is preceded by a release of the lock. -/
def releasedBeforeWork (t : List LockEvent) : Prop :=
  ∀ j, t.get? j = some .sessionWork →
    ∃ r < j, t.get? r = some .lockRelease

/-! ## Fixtures and helper lemmas -/

/-- A concrete configuration value, as the bridge would hold after the
Android overrides. -/
def cfgTest : Config :=
  { api_key := none, default_model := none, default_provider := some "openrouter",
    gateway_host := "127.0.0.1", gateway_port := 8000,
    gateway_require_pairing := false, android_enabled := true,
    android_bridge_mode := "http", telegram := none }

/-- A registry holding two live sessions, under handles 1 and 2. -/
def regTwo : Registry := some [(1, ⟨cfgTest⟩), (2, ⟨cfgTest⟩)]

lemma wrap64_eq_of_bounds (n : Int) (h1 : -i64Half ≤ n) (h2 : n < i64Half) :
    wrap64 n = n := by
  unfold wrap64
  have hb : (0 : Int) < 2 * i64Half := by norm_num [i64Half]
  have h0 : 0 ≤ n + i64Half := by linarith
  have hlt : n + i64Half < 2 * i64Half := by linarith
  rw [Int.emod_eq_of_lt h0 hlt]
  ring

lemma wrap64_half : wrap64 i64Half = -i64Half := by
  unfold wrap64
  have : i64Half + i64Half = 2 * i64Half := by ring
  rw [this, Int.emod_self]
  ring

lemma i64Half_pos : (0 : Int) < i64Half := by norm_num [i64Half]

/-- Closed form of the handle counter before it wraps. -/
lemma nextIdState_closed (k : Nat) (h : (k : Int) + 1 < i64Half) :
    nextIdState k = (k : Int) + 1 := by
  induction k with
  | zero => simp [nextIdState]
  | succ n ih =>
    have hn : (n : Int) + 1 < i64Half := by push_cast at h ⊢; linarith
    have hrec : nextIdState (n + 1) = wrap64 (nextIdState n + 1) := rfl
    rw [hrec, ih hn]
    have hpos : (0 : Int) ≤ (n : Int) + 1 + 1 := by positivity
    have hle : -i64Half ≤ (n : Int) + 1 + 1 := le_trans (by linarith [i64Half_pos]) hpos
    have hup : (n : Int) + 1 + 1 < i64Half := by push_cast at h; linarith
    rw [wrap64_eq_of_bounds _ hle hup]
    push_cast
    ring

lemma mapGet_filter_self (m : List (Int × AgentHandle)) (k : Int) :
    mapGet (m.filter (fun e => decide (e.1 ≠ k))) k = none := by
  induction m with
  | nil => rfl
  | cons a rest ih =>
    simp only [ne_eq, decide_not] at ih ⊢
    by_cases hk : a.1 = k
    · simp [List.filter, hk, ih]
    · simp [List.filter, hk, mapGet, ih]

lemma regLookup_init (reg : Registry) (h : Int) :
    regLookup (init_handles reg) h = regLookup reg h := by
  cases reg with
  | none => rfl
  | some m => rfl

lemma nextIdState_succ (k : Nat) : nextIdState (k + 1) = wrap64 (nextIdState k + 1) := rfl

/-! ## Claim theorems -/

/-- C9: the boundary release operation for returned buffers is safe
against a null input — calling `mobileclaw_free_cstring` with a null
pointer is a no-op on the live allocations and never a fault. -/
theorem free_cstring_null_noop (live : List Nat) :
    mobileclaw_free_cstring live CPtr.null = .ok live := rfl

/-- C6 counterexample: the handle counter is a wrapping 64-bit atomic,
so the 2^63-th allocation call returns a negative value — the claim
that every returned handle is strictly positive fails there. -/
theorem next_handle_id_wraps_nonpositive_cx : nextIdState (2 ^ 63 - 1) < 0 := by
  have e1 : (2 : Nat) ^ 63 - 1 = (2 ^ 63 - 2) + 1 := by norm_num
  have ec : ((2 ^ 63 - 2 : Nat) : Int) = 9223372036854775806 := by norm_num
  have e2 : ((2 ^ 63 - 2 : Nat) : Int) + 1 < i64Half := by
    rw [ec]; norm_num [i64Half]
  have e3 : nextIdState (2 ^ 63 - 2) = ((2 ^ 63 - 2 : Nat) : Int) + 1 :=
    nextIdState_closed _ e2
  rw [e1, nextIdState_succ, e3]
  have e4 : ((2 ^ 63 - 2 : Nat) : Int) + 1 + 1 = i64Half := by
    rw [ec]; norm_num [i64Half]
  rw [e4, wrap64_half]
  norm_num [i64Half]

/-- C6 amended: for every sequence of at most 2^63 - 1 allocation
calls the returned handle values are pairwise distinct, strictly
increasing in call order, strictly positive and within the positive
i64 range (so never reused within such a sequence). -/
theorem next_handle_id_monotone_positive (j k : Nat) (hjk : j < k)
    (hk : (k : Int) + 1 < i64Half) :
    0 < nextIdState j ∧ nextIdState j < nextIdState k ∧ nextIdState k < i64Half := by
  have hcast : (j : Int) < (k : Int) := by exact_mod_cast hjk
  have hj : (j : Int) + 1 < i64Half := by linarith
  rw [nextIdState_closed j hj, nextIdState_closed k hk]
  refine ⟨by positivity, by linarith, by linarith⟩

theorem next_handle_id_monotone_positive_witness :
    0 < nextIdState 0 ∧ nextIdState 0 < nextIdState 1 ∧ nextIdState 1 < i64Half :=
  next_handle_id_monotone_positive 0 1 (by norm_num) (by norm_num [i64Half])

/-- C5 counterexample: on a process where the registry was never
initialized (no start call ever ran), handle 5 was never valid, yet
`stopAgent` signals nothing — the conditional body guarding the map is
skipped and no InvalidHandle exception is thrown. -/
theorem stopAgent_uninitialized_no_error_cx :
    regLookup (none : Registry) 5 = none ∧ (stopAgent (none : Registry) 5).2 = none :=
  ⟨rfl, rfl⟩

/-- C5 amended: `stopAgent` followed by `isHealthy` on the same handle
always yields false; and whenever the registry storage has been
initialized, `stopAgent` on a handle with no binding (never issued or
already stopped) signals InvalidHandle. -/
theorem stop_then_unhealthy_and_invalid_handle (reg : Registry) (handle_id : Int) :
    isHealthy (stopAgent reg handle_id).1 handle_id = false ∧
    (∀ m, reg = some m → mapGet m handle_id = none →
      (stopAgent reg handle_id).2 = some "Invalid handle ID") := by
  constructor
  · cases reg with
    | none => rfl
    | some m =>
      have h1 : (stopAgent (some m) handle_id).1 =
          some (m.filter (fun e => decide (e.1 ≠ handle_id))) := by
        unfold stopAgent mapRemove
        cases hg : mapGet m handle_id <;> simp [hg]
      rw [h1]
      show (mapGet (m.filter (fun e => decide (e.1 ≠ handle_id))) handle_id).isSome = false
      rw [mapGet_filter_self]
      rfl
  · intro m hm hget
    subst hm
    unfold stopAgent mapRemove
    simp [hget]

theorem stop_then_unhealthy_and_invalid_handle_witness :
    isHealthy (stopAgent (some [] : Registry) 1).1 1 = false ∧
    (stopAgent (some [] : Registry) 1).2 = some "Invalid handle ID" :=
  ⟨(stop_then_unhealthy_and_invalid_handle (some []) 1).1,
   (stop_then_unhealthy_and_invalid_handle (some []) 1).2 [] rfl rfl⟩

/-- C2 counterexample: with a valid handle and a validly encoded
message, `processMessage` still throws when the JNI environment fails
to allocate the response string — a third exception cause beyond
invalid handle and invalid encoding. -/
theorem processMessage_throws_on_alloc_failure_cx :
    (regLookup regTwo 1).isSome = true ∧
    processMessage regTwo 1 (.ok "hello") (fun _ _ => .ok "reply") (fun _ => false)
      = .thrown "Failed to create response string" :=
  ⟨rfl, rfl⟩

/-- C2 amended: for every valid handle and validly encoded message,
when the response string allocation succeeds `processMessage` returns
the reply text and never throws, with internal agent failure rendered
as descriptive text inside the returned string; an exception is raised
only for an invalid handle, an invalid input encoding, or a failed
response-string allocation. -/
theorem processMessage_reply_and_throw_classification :
    (∀ reg handle_id msgStr agent newStringOk h,
      regLookup reg handle_id = some h →
      newStringOk (renderAgentResult (agent h.config msgStr)) = true →
      processMessage reg handle_id (.ok msgStr) agent newStringOk
        = .ok (renderAgentResult (agent h.config msgStr))) ∧
    (∀ reg handle_id message agent newStringOk r,
      processMessage reg handle_id message agent newStringOk = .thrown r →
      regLookup reg handle_id = none ∨ (∃ e, message = .error e) ∨
      (∃ h s, regLookup reg handle_id = some h ∧ message = .ok s ∧
        newStringOk (renderAgentResult (agent h.config s)) = false)) := by
  constructor
  · intro reg handle_id msgStr agent newStringOk h hl hn
    unfold processMessage
    rw [hl]
    simp [hn]
  · intro reg handle_id message agent newStringOk r hth
    unfold processMessage at hth
    cases hl : regLookup reg handle_id with
    | none => exact Or.inl rfl
    | some h =>
      rw [hl] at hth
      cases message with
      | error e => exact Or.inr (Or.inl ⟨e, rfl⟩)
      | ok s =>
        by_cases hn : newStringOk (renderAgentResult (agent h.config s)) = true
        · simp [hn] at hth
        · refine Or.inr (Or.inr ⟨h, s, rfl, rfl, ?_⟩)
          simpa using hn

theorem processMessage_reply_and_throw_classification_witness :
    processMessage regTwo 1 (.ok "hi") (fun _ _ => .error "boom") (fun _ => true)
      = .ok "Error processing message: boom" :=
  processMessage_reply_and_throw_classification.1 regTwo 1 "hi"
    (fun _ _ => .error "boom") (fun _ => true) ⟨cfgTest⟩ rfl rfl

/-- C8: when `startAgent` fails — configuration path decode failure,
configuration load failure, or runtime creation failure — the call
throws, the registry mapping is observationally unchanged (every
lookup answers as before), and no handle reaches the caller; a handle
is returned only when every startup step succeeded. -/
theorem startAgent_failure_no_handle (reg : Registry)
    (configPath apiKey model telegramToken : Except String String)
    (loadConfig : Except String Config) (runtimeOk : Bool) (newId : Int) :
    (∀ r, (startAgent reg configPath apiKey model telegramToken loadConfig
        runtimeOk newId).2 = .thrown r →
      ∀ h, regLookup (startAgent reg configPath apiKey model telegramToken loadConfig
        runtimeOk newId).1 h = regLookup reg h) ∧
    (∀ handle_id, (startAgent reg configPath apiKey model telegramToken loadConfig
        runtimeOk newId).2 = .ok handle_id →
      (∃ p, configPath = .ok p) ∧ (∃ c, loadConfig = .ok c) ∧ runtimeOk = true ∧
      handle_id = newId) := by
  constructor
  · intro r _ h
    cases configPath with
    | error e => exact regLookup_init reg h
    | ok p =>
      cases loadConfig with
      | error e => exact regLookup_init reg h
      | ok c =>
        cases runtimeOk with
        | false => exact regLookup_init reg h
        | true =>
          exfalso
          rename_i hth
          cases reg with
          | none => simp [startAgent, init_handles] at hth
          | some m => simp [startAgent, init_handles] at hth
  · intro handle_id hok
    cases configPath with
    | error e => simp [startAgent] at hok
    | ok p =>
      cases loadConfig with
      | error e => simp [startAgent] at hok
      | ok c =>
        cases runtimeOk with
        | false => simp [startAgent] at hok
        | true =>
          refine ⟨⟨p, rfl⟩, ⟨c, rfl⟩, rfl, ?_⟩
          cases reg with
          | none =>
            have h2 : JniResult.ok (α := Int) newId = .ok handle_id := hok
            exact (JniResult.ok.inj h2).symm
          | some m =>
            have h2 : JniResult.ok (α := Int) newId = .ok handle_id := hok
            exact (JniResult.ok.inj h2).symm

theorem startAgent_failure_no_handle_witness :
    (regLookup (startAgent (some []) (.ok "/ws") (.ok "") (.ok "") (.ok "")
        (.error "no config") true 1).1 7 = regLookup (some [] : Registry) 7) ∧
    ((∃ p, (Except.ok "/ws" : Except String String) = .ok p) ∧
      (∃ c, (Except.ok cfgTest : Except String Config) = .ok c) ∧ true = true ∧
      (2 : Int) = 2) :=
  ⟨(startAgent_failure_no_handle (some []) (.ok "/ws") (.ok "") (.ok "") (.ok "")
      (.error "no config") true 1).1 ("Failed to load config: " ++ "no config") rfl 7,
   (startAgent_failure_no_handle (some []) (.ok "/ws") (.ok "") (.ok "") (.ok "")
      (.ok cfgTest) true 2).2 2 rfl⟩

/-- Case analysis of one `TelegramNotifyTool.execute` run: the four
branches the source can take, with the outcome of each. -/
lemma execute_shape (tool : TelegramNotifyTool) (count : Nat) (args : Json)
    (net : String → HttpResponse) :
    (tool.security.can_act = false ∧
      tool.execute count args net =
        { result := .ok
                { success := false, output := "",
                  error := some "Action blocked: autonomy is read-only" },
          count := count, effects := [] }) ∨
    (tool.security.can_act = true ∧ ¬ count < tool.security.max_actions_per_hour ∧
      tool.execute count args net =
        { result := .ok
                { success := false, output := "",
                  error := some "Action blocked: rate limit exceeded" },
          count := count, effects := [.recordAction] }) ∨
    (tool.security.can_act = true ∧ count < tool.security.max_actions_per_hour ∧
      messageArg args = none ∧
      tool.execute count args net =
        { result := .error "Missing \x27message\x27 parameter",
          count := count + 1, effects := [.recordAction] }) ∨
    (tool.security.can_act = true ∧ count < tool.security.max_actions_per_hour ∧
      ∃ msg, messageArg args = some msg ∧
        (tool.execute count args net).count = count + 1 ∧
        (tool.execute count args net).effects = [.recordAction, .networkSend msg]) := by
  by_cases hca : tool.security.can_act = false
  · exact Or.inl ⟨hca, by simp [TelegramNotifyTool.execute, hca]⟩
  · have hca2 : tool.security.can_act = true := by
      cases hb : tool.security.can_act with
      | false => exact absurd hb hca
      | true => rfl
    by_cases hcnt : count < tool.security.max_actions_per_hour
    · cases hmsg : messageArg args with
      | none =>
        refine Or.inr (Or.inr (Or.inl ⟨hca2, hcnt, rfl, ?_⟩))
        simp [TelegramNotifyTool.execute, hca2, SecurityPolicy.record_action, hcnt, hmsg]
      | some msg =>
        refine Or.inr (Or.inr (Or.inr ⟨hca2, hcnt, msg, rfl, ?_, ?_⟩)) <;>
          simp [TelegramNotifyTool.execute, hca2, SecurityPolicy.record_action, hcnt, hmsg]
    · refine Or.inr (Or.inl ⟨hca2, hcnt, ?_⟩)
      simp [TelegramNotifyTool.execute, hca2, SecurityPolicy.record_action, hcnt]

/-- C3: under a read-only autonomy level every gated action is refused
with the read-only reason, the counter is untouched and the counting
operation is never invoked (no gate effect at all); under a permitting
autonomy level with a zero per-window maximum, a gated action at any
counter value — in particular the first — is refused with the
rate-limit reason and the counter is unchanged. -/
theorem gate_readonly_and_zero_window_refusals :
    (∀ (tool : TelegramNotifyTool) (count : Nat) (args : Json)
        (net : String → HttpResponse),
      tool.security.autonomy = .ReadOnly →
      tool.execute count args net =
        { result := .ok
                { success := false, output := "",
                  error := some "Action blocked: autonomy is read-only" },
          count := count, effects := [] }) ∧
    (∀ (tool : TelegramNotifyTool) (count : Nat) (args : Json)
        (net : String → HttpResponse),
      tool.security.autonomy = .Full →
      tool.security.max_actions_per_hour = 0 →
      tool.execute count args net =
        { result := .ok
                { success := false, output := "",
                  error := some "Action blocked: rate limit exceeded" },
          count := count, effects := [.recordAction] }) := by
  constructor
  · intro tool count args net h
    have hca : tool.security.can_act = false := by
      simp [SecurityPolicy.can_act, h]
    rcases execute_shape tool count args net with ⟨_, he⟩ | ⟨hT, _, _⟩ |
      ⟨hT, _, _, _⟩ | ⟨hT, _, _⟩
    · exact he
    all_goals rw [hca] at hT; exact absurd hT (by simp)
  · intro tool count args net h1 h2
    have hca : tool.security.can_act = true := by
      simp [SecurityPolicy.can_act, h1]
    have hcnt : ¬ count < tool.security.max_actions_per_hour := by
      rw [h2]; exact Nat.not_lt_zero count
    rcases execute_shape tool count args net with ⟨hF, _⟩ | ⟨_, _, he⟩ |
      ⟨_, hlt, _, _⟩ | ⟨_, hlt, _⟩
    · rw [hca] at hF; exact absurd hF (by simp)
    · exact he
    all_goals exact absurd hlt hcnt

theorem gate_readonly_and_zero_window_refusals_witness :
    (TelegramNotifyTool.execute
        { security := { autonomy := .ReadOnly, max_actions_per_hour := 100 },
          bot_token := "123:ABC", chat_id := "987654321" } 0
        (Json.obj [("message", Json.str "hello")]) (fun _ => ⟨true, "", none⟩) =
      { result := .ok
              { success := false, output := "",
                error := some "Action blocked: autonomy is read-only" },
        count := 0, effects := [] }) ∧
    (TelegramNotifyTool.execute
        { security := { autonomy := .Full, max_actions_per_hour := 0 },
          bot_token := "123:ABC", chat_id := "987654321" } 0
        (Json.obj [("message", Json.str "hello")]) (fun _ => ⟨true, "", none⟩) =
      { result := .ok
              { success := false, output := "",
                error := some "Action blocked: rate limit exceeded" },
        count := 0, effects := [.recordAction] }) :=
  ⟨gate_readonly_and_zero_window_refusals.1
      { security := { autonomy := .ReadOnly, max_actions_per_hour := 100 },
        bot_token := "123:ABC", chat_id := "987654321" } 0
      (Json.obj [("message", Json.str "hello")]) (fun _ => ⟨true, "", none⟩) rfl,
   gate_readonly_and_zero_window_refusals.2
      { security := { autonomy := .Full, max_actions_per_hour := 0 },
        bot_token := "123:ABC", chat_id := "987654321" } 0
      (Json.obj [("message", Json.str "hello")]) (fun _ => ⟨true, "", none⟩) rfl rfl⟩

/-- C4: on every execution of the gated tool, a refusal by either gate
check (autonomy or rate) leaves the counter unchanged and sends no
network request; and whenever a network request is sent, both gate
checks passed and the counting operation preceded the send in the
effect order — the side effect is never partially executed on a
refused attempt. -/
theorem gate_checks_before_network_effect (tool : TelegramNotifyTool)
    (count : Nat) (args : Json) (net : String → HttpResponse) :
    (tool.security.can_act = false →
      (tool.execute count args net).count = count ∧
      ∀ m, Effect.networkSend m ∉ (tool.execute count args net).effects) ∧
    (tool.security.can_act = true → ¬ count < tool.security.max_actions_per_hour →
      (tool.execute count args net).count = count ∧
      ∀ m, Effect.networkSend m ∉ (tool.execute count args net).effects) ∧
    (∀ m, Effect.networkSend m ∈ (tool.execute count args net).effects →
      tool.security.can_act = true ∧ count < tool.security.max_actions_per_hour ∧
      (tool.execute count args net).effects =
        [Effect.recordAction, Effect.networkSend m]) := by
  rcases execute_shape tool count args net with ⟨hca, he⟩ | ⟨hca, hcnt, he⟩ |
    ⟨hca, hcnt, hmsg, he⟩ | ⟨hca, hcnt, msg, hmsg, hc, heff⟩
  · refine ⟨fun _ => ⟨by rw [he], fun m => by rw [he]; simp⟩, fun hT _ => ?_, fun m hm => ?_⟩
    · rw [hca] at hT; exact absurd hT (by simp)
    · rw [he] at hm; simp at hm
  · refine ⟨fun hF => ?_, fun _ _ => ⟨by rw [he], fun m => by rw [he]; simp⟩, fun m hm => ?_⟩
    · rw [hca] at hF; exact absurd hF (by simp)
    · rw [he] at hm; simp at hm
  · refine ⟨fun hF => ?_, fun _ hn => absurd hcnt hn, fun m hm => ?_⟩
    · rw [hca] at hF; exact absurd hF (by simp)
    · rw [he] at hm; simp at hm
  · refine ⟨fun hF => ?_, fun _ hn => absurd hcnt hn, fun m hm => ?_⟩
    · rw [hca] at hF; exact absurd hF (by simp)
    · rw [heff] at hm
      simp at hm
      rcases hm with hm
      exact ⟨hca, hcnt, by rw [heff, hm]⟩

theorem gate_checks_before_network_effect_witness :
    ((TelegramNotifyTool.execute
        { security := { autonomy := .ReadOnly, max_actions_per_hour := 3 },
          bot_token := "t", chat_id := "c" } 2
        (Json.obj [("message", Json.str "hey")]) (fun _ => ⟨true, "", none⟩)).count = 2 ∧
      ∀ m, Effect.networkSend m ∉ (TelegramNotifyTool.execute
        { security := { autonomy := .ReadOnly, max_actions_per_hour := 3 },
          bot_token := "t", chat_id := "c" } 2
        (Json.obj [("message", Json.str "hey")]) (fun _ => ⟨true, "", none⟩)).effects) ∧
    (TelegramNotifyTool.execute
        { security := { autonomy := .Full, max_actions_per_hour := 3 },
          bot_token := "t", chat_id := "c" } 0
        (Json.obj [("message", Json.str "hey")]) (fun _ => ⟨true, "", none⟩)).effects =
      [Effect.recordAction, Effect.networkSend "hey"] :=
  ⟨(gate_checks_before_network_effect
      { security := { autonomy := .ReadOnly, max_actions_per_hour := 3 },
        bot_token := "t", chat_id := "c" } 2
      (Json.obj [("message", Json.str "hey")]) (fun _ => ⟨true, "", none⟩)).1 rfl,
   ((gate_checks_before_network_effect
      { security := { autonomy := .Full, max_actions_per_hour := 3 },
        bot_token := "t", chat_id := "c" } 0
      (Json.obj [("message", Json.str "hey")]) (fun _ => ⟨true, "", none⟩)).2.2 "hey"
      (by decide)).2.2⟩

/-- C10: when the gate passes (autonomy permits and the counter is
under the window maximum) but the message argument is missing, empty
or whitespace-only, `execute` returns an error without any network
send — yet the counting operation has already advanced the counter, so
the failed attempt consumes one rate-limit slot. -/
theorem telegram_missing_message_consumes_slot (tool : TelegramNotifyTool)
    (count : Nat) (args : Json) (net : String → HttpResponse)
    (hca : tool.security.can_act = true)
    (hcnt : count < tool.security.max_actions_per_hour)
    (hmsg : messageArg args = none) :
    tool.execute count args net =
      { result := .error "Missing \x27message\x27 parameter",
        count := count + 1, effects := [.recordAction] } := by
  rcases execute_shape tool count args net with ⟨hF, _⟩ | ⟨_, hn, _⟩ |
    ⟨_, _, _, he⟩ | ⟨_, _, msg, hsome, _⟩
  · rw [hca] at hF; exact absurd hF (by simp)
  · exact absurd hcnt hn
  · exact he
  · rw [hmsg] at hsome; exact absurd hsome (by simp)

theorem telegram_missing_message_consumes_slot_witness :
    TelegramNotifyTool.execute
        { security := { autonomy := .Full, max_actions_per_hour := 100 },
          bot_token := "123:ABC", chat_id := "987654321" } 0
        (Json.obj [("message", Json.str "   ")]) (fun _ => ⟨true, "", none⟩) =
      { result := .error "Missing \x27message\x27 parameter",
        count := 1, effects := [.recordAction] } :=
  telegram_missing_message_consumes_slot
    { security := { autonomy := .Full, max_actions_per_hour := 100 },
      bot_token := "123:ABC", chat_id := "987654321" } 0
    (Json.obj [("message", Json.str "   ")]) (fun _ => ⟨true, "", none⟩)
    rfl (by norm_num) rfl

/-- C1: contrary to the locking discipline, both bridged calls hold
the registry lock across the session work — the MutexGuard taken at
the top of `processMessage` (line 148) and `executeTool` (line 259)
lives until the function returns, after `runtime.block_on`.  On a
registry with two valid handles, each trace runs its session work
strictly between lock acquisition and the only lock release, so a
second concurrent bridged call on the other handle would block on the
registry lock for the whole duration. -/
theorem bridged_calls_hold_lock_during_session_work :
    heldDuringWork (processMessageTrace regTwo 1 true) ∧
    heldDuringWork (executeToolTrace regTwo 2 true) ∧
    ¬ releasedBeforeWork (processMessageTrace regTwo 1 true) := by
  refine ⟨⟨2, 3, by norm_num, by decide, by decide, by decide, by decide⟩,
    ⟨2, 3, by norm_num, by decide, by decide, by decide, by decide⟩, ?_⟩
  intro hrel
  obtain ⟨r, hr, hget⟩ := hrel 2 (by decide)
  interval_cases r
  · exact absurd hget (by decide)
  · exact absurd hget (by decide)

/-- C7: the single-shot JSON entry point rejects a request missing the
required prompt field with an ok-false, reply-null, error-text
envelope rather than a fault; rejects a prompt whose trimmed text is
empty as empty; and in every case returns exactly a well-formed
response object of the form ok, reply, error. -/
theorem handle_request_json_envelope :
    (∀ chat fields, Json.getField fields "prompt" = none →
      ∃ e, handle_request_json chat (Json.obj fields)
        = make_response false none (some e)) ∧
    (∀ chat j req, parseRequest j = .ok req →
      strIsEmpty (rustTrim req.prompt) = true →
      handle_request_json chat j
        = make_response false none (some "prompt must not be empty")) ∧
    (∀ chat j, ∃ ok reply err,
      handle_request_json chat j = make_response ok reply err) := by
  refine ⟨?_, ?_, ?_⟩
  · intro chat fields hget
    refine ⟨"invalid request JSON: " ++ "missing field prompt", ?_⟩
    simp [handle_request_json, parseRequest, hget]
  · intro chat j req hp he
    unfold handle_request_json
    rw [hp]
    simp [he]
  · intro chat j
    unfold handle_request_json
    cases hp : parseRequest j with
    | error e => exact ⟨false, none, some ("invalid request JSON: " ++ e), rfl⟩
    | ok req =>
      by_cases he : strIsEmpty (rustTrim req.prompt) = true
      · exact ⟨false, none, some "prompt must not be empty", by simp [he]⟩
      · cases hc : chat req with
        | ok reply => exact ⟨true, some reply, none, by simp [he, hc]⟩
        | error e => exact ⟨false, none, some e, by simp [he, hc]⟩

theorem handle_request_json_envelope_witness :
    (∃ e, handle_request_json (fun _ => .ok "done") (Json.obj [])
      = make_response false none (some e)) ∧
    (handle_request_json (fun _ => .ok "done")
        (Json.obj [("prompt", Json.str "   ")])
      = make_response false none (some "prompt must not be empty")) ∧
    (∃ ok reply err, handle_request_json (fun _ => .ok "done")
        (Json.obj [("prompt", Json.str "hello")])
      = make_response ok reply err) :=
  ⟨handle_request_json_envelope.1 (fun _ => .ok "done") [] rfl,
   handle_request_json_envelope.2.1 (fun _ => .ok "done")
     (Json.obj [("prompt", Json.str "   ")])
     { prompt := "   ", system_prompt := none, provider := default_provider,
       model := default_model, api_url := none, api_key := none,
       temperature := default_temperature } rfl rfl,
   handle_request_json_envelope.2.2 (fun _ => .ok "done")
     (Json.obj [("prompt", Json.str "hello")])⟩

end Mobileclaw
